import Mathlib

/-!
Verification of the CoinMind chat orchestration route
(`src/app/api/chat/route.ts`) against its natural-language specification.

The route's control flow is embedded shallowly: every external collaborator
(the Gemini text-completion service, the CSV parser, the ledger repository,
the profile repository, the currency-rate service, the financial Q&A
service, the language detector and the built-in JSON parser) is an input
oracle whose outcome is an `Except`/`Option` value, and the handler becomes
a pure function from the request plus oracles to an HTTP-style response
together with the list of collaborator calls it performed (the effect
trace).  JavaScript numbers are modelled as rationals, JavaScript string
operations by executable character-list functions.
-/

namespace Coinmind

/-! ## Character-level string utilities (models of the JS string operations) -/

/-- Whether `needle` occurs at the head of the list (model of a JS
`startsWith` test on the remaining characters). -/
def listStartsWith : List Char → List Char → Bool
  | [], _ => true
  | _ :: _, [] => false
  | a :: as, b :: bs => a = b && listStartsWith as bs

/-- The suffix of `hay` that follows the first occurrence of `needle`,
or `none` when `needle` does not occur. -/
def afterFirst (needle : List Char) : List Char → Option (List Char)
  | [] => if needle = [] then some [] else none
  | c :: cs =>
    if listStartsWith needle (c :: cs) then some ((c :: cs).drop needle.length)
    else afterFirst needle cs

/-- The portion of `hay` that precedes the first occurrence of `needle`,
or `none` when `needle` does not occur. -/
def beforeFirst (needle : List Char) : List Char → Option (List Char)
  | [] => if needle = [] then some [] else none
  | c :: cs =>
    if listStartsWith needle (c :: cs) then some []
    else (beforeFirst needle cs).map (c :: ·)

/-- Model of JavaScript `String.prototype.includes`. -/
def jsIncludes (s sub : String) : Bool :=
  (afterFirst sub.toList s.toList).isSome

/-- Model of JavaScript `String.prototype.startsWith`. -/
def jsStartsWith (s p : String) : Bool :=
  listStartsWith p.toList s.toList

/-- Model of the regex capture `/marker([\s\S]*)/`: the text after the
first occurrence of the marker, if the marker occurs at all. -/
def extractAfterMarker (msg marker : String) : Option String :=
  (afterFirst marker.toList msg.toList).map fun cs => String.mk cs

/-- Strip leading and trailing whitespace from a character list. -/
def trimChars (cs : List Char) : List Char :=
  ((cs.dropWhile (·.isWhitespace)).reverse.dropWhile (·.isWhitespace)).reverse

/-- Model of JavaScript `String.prototype.trim`. -/
def jsTrim (s : String) : String :=
  String.mk (trimChars s.toList)

/-- Model of the JavaScript idiom `x || d` on an optional string: the
default is taken when the value is absent or the empty string (falsy). -/
def jsOr (o : Option String) (d : String) : String :=
  match o with
  | some s => if s = "" then d else s
  | none => d

/-! ## Data model -/

/-- Transaction type tag, as classified by the extractor. -/
inductive TxType
  | income
  | expense
deriving DecidableEq, Repr

/-- Metadata the client sends about an uploaded file (`fileInfo` /
`previousFile` in the request body). -/
structure FileMeta where
  name : String
  size : Nat
  typ : String
  lastModified : Nat
deriving DecidableEq, Repr

/-- The user profile record returned by the profile repository. -/
structure Profile where
  defaultCurrency : String
deriving DecidableEq, Repr

/-- The raw record returned by `parseTransactionText`; every field may be
absent. -/
structure ParsedTransaction where
  amount : Option Rat := none
  description : Option String := none
  currency : Option String := none
  category : Option String := none
  typ : Option TxType := none
  date : Option Nat := none
  vendor : Option String := none
deriving DecidableEq, Repr

/-- The in-memory `transactionInfo` object the default path builds from an
actionable parse (route.ts lines 477-495). -/
structure TxInfo where
  description : String
  amount : Rat
  currency : Option String
  category : String
  typ : TxType
  date : Option Nat
  vendor : Option String
deriving DecidableEq, Repr

/-- A row produced by `parseCSVWithGemini` for the import pipeline. -/
structure CsvRow where
  description : String
  amount : Rat
  category : String
  typ : TxType
  date : Option Nat := none
  vendor : Option String := none
deriving DecidableEq, Repr

/-- The `newTransaction` record the confirm phase builds per row
(route.ts lines 368-380). -/
structure NewTransaction where
  description : String
  originalAmount : Rat
  originalCurrency : String
  convertedAmount : Rat
  convertedCurrency : String
  conversionRate : Rat
  conversionFee : Rat
  category : String
  date : Option Nat
  typ : TxType
  vendor : String
deriving DecidableEq, Repr

/-- The argument object passed to `services.transactions.createTransaction`.
The confirm phase passes no `type` field; the default path does. -/
structure CreatePayload where
  amount : Rat
  currency : String
  description : String
  category : String
  typ : Option TxType := none
  date : Option Nat := none
  vendor : String
deriving DecidableEq, Repr

/-- The financial snapshot data interpolated into the system prompt
(balance, income, expenses, transaction count, default currency). -/
structure Snapshot where
  balance : Rat
  income : Rat
  expenses : Rat
  transactionCount : Nat
  defaultCurrency : String
deriving DecidableEq, Repr

/-- A tag identifying which prompt a `model.generateContent` call carries,
together with the request-derived data interpolated into that prompt.  A
tag's payload is exactly the information the source builds the prompt
from, so a call whose tag holds only the raw message is a prompt built
without any financial snapshot. -/
inductive GenTag
  | dupAnalysis (current previous : FileMeta)
  | dupMessage (f : FileMeta) (explanation : String)
  | successMsg (snap : Snapshot) (message : String) (info : TxInfo)
  | apologyMsg (snap : Snapshot) (message : String)
  | generalMsg (snap : Snapshot) (message : String)
  | fallbackMsg (message : String)
  | classifyMsg (message : String) (lang : Option String)
deriving DecidableEq, Repr

/-- One collaborator call performed while handling a request. -/
inductive Eff
  | fetchData
  | parseTx
  | parseCSV
  | findProfile
  | convertCall
  | genCall (tag : GenTag)
  | persistTx (p : CreatePayload)
  | answerFQ
deriving DecidableEq, Repr

/-- The `data` object of a successful JSON response; absent JSON fields are
`none`. -/
structure RespData where
  message : String
  transactionAdded : Option Bool := none
  typ : Option String := none
  requiresConfirmation : Option Bool := none
  isDuplicate : Option Bool := none
  suggestions : Option (List String) := none
  fileInfo : Option FileMeta := none
deriving DecidableEq, Repr

/-- An HTTP-style response: a 200 success envelope or an error envelope
with its status code and error string. -/
inductive Resp
  | ok200 (data : RespData)
  | err (status : Nat) (error : String)
deriving DecidableEq, Repr

/-! ## JSON values and the intent-classification helper -/

/-- JSON values, as produced by the JavaScript built-in `JSON.parse`. -/
inductive Json
  | jnull
  | jbool (b : Bool)
  | jnum (q : Rat)
  | jstr (s : String)
  | jarr (elems : List Json)
  | jobj (fields : List (String × Json))

/-- Property access `parsed.field` on a parsed JSON value: defined only on
objects, `none` (undefined) otherwise. -/
def Json.getField : Json → String → Option Json
  | .jobj fields, k =>
    match fields.find? (fun kv => kv.1 = k) with
    | some kv => some kv.2
    | none => none
  | _, _ => none

/-- Model of the regex `/` + "```" + `(?:json)?\s*\n?([\s\S]*?)\n?` + "```" + `/`:
if the text holds a fenced code block, the fenced content (with an optional
`json` language tag removed, then trimmed as the source does); otherwise
the text unchanged. -/
def stripCodeFence (text : String) : String :=
  match afterFirst "```".toList text.toList with
  | none => text
  | some rest =>
    match beforeFirst "```".toList rest with
    | none => text
    | some inner =>
      let inner := if listStartsWith "json".toList inner then inner.drop 4 else inner
      jsTrim (String.mk inner)

/-- The value returned by `handleFinancialQueryWithLLM`. -/
structure Classification where
  isFinancial : Bool
  intent : String
  response : String
deriving DecidableEq, Repr

/-- The two `typeof` checks the classifier performs on the parsed JSON:
`some (b, s)` exactly when `parsed.isFinancial` is a boolean `b` and
`parsed.intent` is a string `s`. -/
def intentFields (parsed : Json) : Option (Bool × String) :=
  match parsed.getField "isFinancial", parsed.getField "intent" with
  | some (.jbool b), some (.jstr s) => some (b, s)
  | _, _ => none

/-- `handleFinancialQueryWithLLM` (route.ts lines 50-121).  `modelResult`
is the outcome of the `model.generateContent` call; `jsonParse` is the
JavaScript built-in `JSON.parse`, returning `none` on a syntax error. -/
def handleFinancialQueryWithLLM (modelResult : Except Unit String)
    (jsonParse : String → Option Json) : Classification :=
  match modelResult with
  | .error _ => { isFinancial := false, intent := "unknown", response := "" }
  | .ok raw =>
    let text := jsTrim raw
    let jsonText := stripCodeFence text
    match jsonParse jsonText with
    | some parsed =>
      match intentFields parsed with
      | some bs => { isFinancial := bs.1, intent := bs.2, response := "" }
      | none => { isFinancial := false, intent := "unknown", response := "" }
    | none => { isFinancial := false, intent := "unknown", response := "" }

/-! ## Collaborator oracles -/

/-- Outcomes of every external collaborator call a single request can
make.  `gen` answers each `model.generateContent` prompt (identified by
its tag); `jsonParse` is the JavaScript built-in `JSON.parse`. -/
structure Oracles where
  apiKey : Bool
  fetchData : Except Unit (List Rat × Option Profile)
  parseTx : Except Unit ParsedTransaction
  findProfile2 : Except Unit (Option Profile)
  conv : Rat → String → String → Except Unit Rat
  persist : CreatePayload → Except Unit Unit
  gen : GenTag → Except Unit String
  jsonParse : String → Option Json
  detect : String → String
  answerFQ : Except Unit String
  parseCSV : String → Except Unit (List CsvRow × String)

/-! ## Default path (route.ts lines 440-752) -/

/-- The `transactionInfo` construction (route.ts lines 473-496): actionable
only when both `amount` and `description` are present and the description
is truthy; category defaults to `Other`, the type to the amount's sign. -/
def detectTransaction (p : ParsedTransaction) : Option TxInfo :=
  match p.amount, p.description with
  | some a, some d =>
    if d = "" then none
    else
      some { description := d
             amount := a
             currency := p.currency
             category := jsOr p.category "Other"
             typ := p.typ.getD (if 0 < a then .income else .expense)
             date := p.date
             vendor := p.vendor }
  | _, _ => none

/-- The default path's currency conversion (route.ts lines 518-550):
identity when the currencies agree, otherwise delegate to `convertAmount`
and fall back to the identity (rate 1) when it throws.  Returns
((finalAmount, finalCurrency, conversionRate), trace). -/
def applyConversion (conv : Rat → String → String → Except Unit Rat)
    (amount : Rat) (transactionCurrency defaultCurrency : String) :
    (Rat × String × Rat) × List Eff :=
  if transactionCurrency ≠ defaultCurrency then
    match conv amount transactionCurrency defaultCurrency with
    | .ok converted => ((converted, defaultCurrency, converted / amount), [.convertCall])
    | .error _ => ((amount, transactionCurrency, 1), [.convertCall])
  else ((amount, transactionCurrency, 1), [])

/-- The fixed language-neutral last-resort string of the transaction
branch (route.ts line 637). -/
def fixedTxErrorMessage : String :=
  "Sorry, there was an error adding the transaction. Please try again."

/-- The `catch (transactionError)` handler (route.ts lines 601-639):
compose an apologetic response, falling back to the fixed string when that
composition also fails.  `added` records whether `transactionAdded` had
already been set when the throw happened. -/
def apologyStep (o : Oracles) (snap : Snapshot) (message : String)
    (added : Bool) (effs : List Eff) : String × Bool × List Eff :=
  match o.gen (.apologyMsg snap message) with
  | .ok t => (t, added, effs ++ [.genCall (.apologyMsg snap message)])
  | .error _ => (fixedTxErrorMessage, added, effs ++ [.genCall (.apologyMsg snap message)])

/-- The transaction-entry branch (route.ts lines 508-640): re-fetch the
profile, resolve the currency, convert, persist, then compose the success
message; any throw inside lands in `apologyStep`.  Returns
(responseText, transactionAdded, trace). -/
def txBranch (o : Oracles) (snap : Snapshot) (message : String) (ti : TxInfo) :
    String × Bool × List Eff :=
  match o.findProfile2 with
  | .error _ => apologyStep o snap message false [.findProfile]
  | .ok profile2 =>
    let defaultCurrency := jsOr (profile2.map Profile.defaultCurrency) "USD"
    let transactionCurrency := jsOr ti.currency defaultCurrency
    let convRes := applyConversion o.conv ti.amount transactionCurrency defaultCurrency
    let payload : CreatePayload :=
      { amount := ti.amount
        currency := transactionCurrency
        description := ti.description
        category := ti.category
        typ := some ti.typ
        date := ti.date
        vendor := jsOr ti.vendor "Unknown" }
    let effs0 := [Eff.findProfile] ++ convRes.2 ++ [Eff.persistTx payload]
    match o.persist payload with
    | .error _ => apologyStep o snap message false effs0
    | .ok _ =>
      let succTag := GenTag.successMsg
        { snap with transactionCount := snap.transactionCount + 1 } message ti
      match o.gen succTag with
      | .ok t => (t, true, effs0 ++ [.genCall succTag])
      | .error _ => apologyStep o snap message true (effs0 ++ [.genCall succTag])

/-- The `catch (dbError)` handler (route.ts lines 720-739): a stateless
fallback prompt built from the raw message only; if even that composition
fails the top-level handler answers with the generic 500. -/
def dbFallback (o : Oracles) (message : String) (effs : List Eff) :
    Resp × List Eff :=
  match o.gen (.fallbackMsg message) with
  | .ok t => (.ok200 { message := t }, effs ++ [.genCall (.fallbackMsg message)])
  | .error _ =>
    (.err 500 "Failed to process chat message. Please try again.",
      effs ++ [.genCall (.fallbackMsg message)])

/-- Route.ts lines 642-719: when no transaction was added, overwrite the
response with the general completion (a throw there reaches the
`dbError` handler), then classify intent and, when financial, try the
Q&A collaborator, falling back to the general response. -/
def generalAndQA (o : Oracles) (snap : Snapshot) (message : String)
    (responseText : String) (added : Bool) (effs : List Eff) :
    Resp × List Eff :=
  if added then
    (.ok200 { message := responseText, transactionAdded := some true }, effs)
  else
    match o.gen (.generalMsg snap message) with
    | .error _ => dbFallback o message (effs ++ [.genCall (.generalMsg snap message)])
    | .ok g =>
      let lang := o.detect message
      let qa := handleFinancialQueryWithLLM (o.gen (.classifyMsg message (some lang))) o.jsonParse
      let effs := effs ++ [Eff.genCall (.generalMsg snap message),
                           Eff.genCall (.classifyMsg message (some lang))]
      if qa.isFinancial then
        match o.answerFQ with
        | .ok ans => (.ok200 { message := ans, transactionAdded := some false }, effs ++ [.answerFQ])
        | .error _ => (.ok200 { message := g, transactionAdded := some false }, effs ++ [.answerFQ])
      else (.ok200 { message := g, transactionAdded := some false }, effs)

/-- The whole default path (route.ts lines 440-752): fetch ledger data and
profile, compute the snapshot, attempt extraction, then run the
transaction branch or fall through to the general/Q&A stage. -/
def postDefault (o : Oracles) (message : String) : Resp × List Eff :=
  match o.fetchData with
  | .error _ => dbFallback o message [.fetchData]
  | .ok td =>
    let amounts := td.1
    let income := (amounts.filter (fun a => 0 < a)).sum
    let expenses := |(amounts.filter (fun a => a < 0)).sum|
    let snap : Snapshot :=
      { balance := income - expenses
        income := income
        expenses := expenses
        transactionCount := amounts.length
        defaultCurrency := jsOr (td.2.map Profile.defaultCurrency) "USD" }
    let transactionInfo :=
      match o.parseTx with
      | .error _ => none
      | .ok p => detectTransaction p
    match transactionInfo with
    | some ti =>
      let br := txBranch o snap message ti
      generalAndQA o snap message br.1 br.2.1 ([Eff.fetchData, Eff.parseTx] ++ br.2.2)
    | none => generalAndQA o snap message "" false [Eff.fetchData, Eff.parseTx]

/-! ## CSV import preview phase (route.ts lines 150-299) -/

/-- The marker the preview-phase regex requires in the message. -/
def csvImportMarker : String :=
  "Please analyze and import this spreadsheet file data:\n\n"

/-- Model of `duplicateAnalysis.replace(/^DUPLICATE:\s*/i, '').trim()`. -/
def stripDupMarker (s : String) : String :=
  let cs := s.toList
  if listStartsWith "DUPLICATE:".toList (cs.map Char.toUpper) then
    jsTrim (String.mk ((cs.drop 10).dropWhile (·.isWhitespace)))
  else jsTrim s

/-- The deterministic duplicate-warning fallback used when composing the
duplicate message fails (route.ts lines 246-255). -/
def duplicateFallbackMessage (f : FileMeta) (explanation : String) : String :=
  "⚠️ **Duplicate File Detected**\n\n" ++ explanation ++
  "\n\n**File Details:**\n- Name: " ++ f.name ++
  "\n- Size: " ++ toString f.size ++ " bytes\n- Type: " ++ f.typ ++
  "\n\n**Recommendation:** Please select a different file or wait a moment before uploading the same file again to avoid duplicate transactions."

/-- The preview confirmation message wrapping the parser's preview text
(route.ts lines 271-277). -/
def previewConfirmationMessage (preview : String) : String :=
  "📄 **Spreadsheet Analysis Complete**\n\n" ++ preview ++
  "\n\nWould you like me to import these transactions to your account?\n\n**Click \"Confirm\" to import or \"Cancel\" to abort.**"

/-- The `csv_import` (preview) branch: extract the tabular text, run the
duplicate analysis when a previous file is known, short-circuit on a
detected duplicate, otherwise parse and return the preview.  No call ever
persists a transaction. -/
def postCsvImport (o : Oracles) (message : String) (fileInfo : FileMeta)
    (previousFile : Option FileMeta) : Resp × List Eff :=
  match extractAfterMarker message csvImportMarker with
  | none => (.err 400 "Invalid CSV import request format", [])
  | some csvText =>
    let da : String × List Eff :=
      match previousFile with
      | none => ("", [])
      | some pf =>
        match o.gen (.dupAnalysis fileInfo pf) with
        | .ok t => (t, [.genCall (.dupAnalysis fileInfo pf)])
        | .error _ => ("", [.genCall (.dupAnalysis fileInfo pf)])
    let duplicateAnalysis := da.1
    if jsIncludes duplicateAnalysis "DUPLICATE" then
      let aiExplanation := stripDupMarker duplicateAnalysis
      match o.gen (.dupMessage fileInfo aiExplanation) with
      | .ok t =>
        (.ok200 { message := t, typ := some "duplicate_detected", isDuplicate := some true },
          da.2 ++ [.genCall (.dupMessage fileInfo aiExplanation)])
      | .error _ =>
        (.ok200 { message := duplicateFallbackMessage fileInfo aiExplanation,
                  typ := some "duplicate_detected", isDuplicate := some true },
          da.2 ++ [.genCall (.dupMessage fileInfo aiExplanation)])
    else
      match o.parseCSV csvText with
      | .error _ => (.err 500 "CSV import failed", da.2 ++ [.parseCSV])
      | .ok rp =>
        (.ok200 { message := previewConfirmationMessage rp.2
                  typ := some "csv_preview"
                  requiresConfirmation := some true
                  suggestions := some ["Confirm Import", "Cancel Import"]
                  fileInfo := some fileInfo },
          da.2 ++ [.parseCSV])

/-! ## CSV import confirm phase (route.ts lines 301-438) -/

/-- The marker the confirm-phase regex requires in the message. -/
def csvConfirmMarker : String := "Process CSV import: "

/-- Per-row processing of the confirm phase (route.ts lines 332-389):
conversion with identity fallback (the source currency is the fixed USD
assumption), the `newTransaction` record, and the `createTransaction`
argument object built from it.  Returns (record, payload, trace). -/
def processRow (defaultCurrency : String)
    (conv : Rat → String → String → Except Unit Rat) (row : CsvRow) :
    NewTransaction × CreatePayload × List Eff :=
  let csvCurrency := "USD"
  let convOutcome : (Rat × String × Rat) × List Eff :=
    if csvCurrency ≠ defaultCurrency then
      match conv |row.amount| csvCurrency defaultCurrency with
      | .ok converted =>
        ((if row.amount < 0 then -converted else converted,
          defaultCurrency, converted / |row.amount|), [.convertCall])
      | .error _ => ((row.amount, csvCurrency, 1), [.convertCall])
    else ((row.amount, csvCurrency, 1), [])
  let nt : NewTransaction :=
    { description := row.description
      originalAmount := |row.amount|
      originalCurrency := csvCurrency
      convertedAmount := convOutcome.1.1
      convertedCurrency := convOutcome.1.2.1
      conversionRate := convOutcome.1.2.2
      conversionFee := 0
      category := row.category
      date := row.date
      typ := row.typ
      vendor := jsOr row.vendor "CSV Import" }
  let payload : CreatePayload :=
    { amount := |row.amount|
      currency := csvCurrency
      description := row.description
      category := row.category
      date := row.date
      vendor := jsOr row.vendor "CSV Import" }
  (nt, payload, convOutcome.2)

/-- The confirm phase's per-row loop (route.ts lines 330-404): each row's
body is wrapped in its own try/catch, incrementing one of the two
counters.  Returns (importedCount, failedCount, trace). -/
def confirmLoop (o : Oracles) (defaultCurrency : String) :
    List CsvRow → Nat × Nat × List Eff
  | [] => (0, 0, [])
  | row :: rest =>
    let pr := processRow defaultCurrency o.conv row
    let head : Nat × Nat × List Eff :=
      match o.persist pr.2.1 with
      | .ok _ => (1, 0, pr.2.2 ++ [.persistTx pr.2.1])
      | .error _ => (0, 1, pr.2.2 ++ [.persistTx pr.2.1])
    let tail := confirmLoop o defaultCurrency rest
    (head.1 + tail.1, head.2.1 + tail.2.1, head.2.2 ++ tail.2.2)

/-- The summary message reporting both counts (route.ts lines 407-416). -/
def csvSuccessMessage (importedCount failedCount : Nat) : String :=
  let base := "✅ **Spreadsheet Import Complete**\n\nSuccessfully imported **" ++
    toString importedCount ++ "** transactions"
  let withFailed :=
    if 0 < failedCount then
      base ++ "\n⚠️ Failed to import " ++ toString failedCount ++ " transactions"
    else base
  withFailed ++ "\n\nYour transactions have been added to your account. You can view them in the dashboard."

/-- The `csv_import_confirm` branch: re-extract and re-parse the tabular
text, resolve the default currency, run the per-row loop, and report both
counts. -/
def postCsvConfirm (o : Oracles) (message : String) : Resp × List Eff :=
  match extractAfterMarker message csvConfirmMarker with
  | none => (.err 400 "Invalid CSV import confirmation format", [])
  | some csvText =>
    match o.parseCSV csvText with
    | .error _ => (.err 500 "CSV import failed: Unknown error", [.parseCSV])
    | .ok rp =>
      match o.findProfile2 with
      | .error _ => (.err 500 "CSV import failed: Unknown error", [.parseCSV, .findProfile])
      | .ok profile =>
        let defaultCurrency := jsOr (profile.map Profile.defaultCurrency) "USD"
        let r := confirmLoop o defaultCurrency rp.1
        (.ok200 { message := csvSuccessMessage r.1 r.2.1, typ := some "csv_success" },
          [Eff.parseCSV, Eff.findProfile] ++ r.2.2)

/-! ## Top-level dispatcher (route.ts lines 123-150, 299-302, 440) -/

/-- The `POST` handler's routing over the `type` tag, after validating the
message and the AI-service configuration. -/
def POST (o : Oracles) (message : String) (typ : Option String)
    (fileInfo : FileMeta) (previousFile : Option FileMeta) : Resp × List Eff :=
  if message = "" then (.err 400 "Message is required", [])
  else if o.apiKey = false then
    (.err 500 "AI service not configured. Please set GEMINI_API_KEY environment variable.", [])
  else if typ = some "csv_import" then postCsvImport o message fileInfo previousFile
  else if typ = some "csv_import_confirm" then postCsvConfirm o message
  else postDefault o message

/-! ## Observation helpers for the theorems -/

/-- Whether an `Except Unit Unit` outcome is a success. -/
def exOk : Except Unit Unit → Bool
  | .ok _ => true
  | .error _ => false

/-- Whether an effect is a `createTransaction` (persistence) call. -/
def isPersistEff : Eff → Bool
  | .persistTx _ => true
  | _ => false

/-- Whether an effect is an intent-classification prompt or a financial
Q&A call. -/
def isQAEff : Eff → Bool
  | .answerFQ => true
  | .genCall (.classifyMsg _ _) => true
  | _ => false

/-- Whether an effect is the apologetic-failure-response prompt. -/
def isApologyEff : Eff → Bool
  | .genCall (.apologyMsg _ _) => true
  | _ => false

/-- The `isDuplicate` flag of a response, `false` when absent. -/
def respIsDup : Resp → Bool
  | .ok200 d => d.isDuplicate = some true
  | .err _ _ => false

/-- The `transactionAdded` flag of a response, `none` when absent. -/
def respAdded : Resp → Option Bool
  | .ok200 d => d.transactionAdded
  | .err _ _ => none

/-- Modelled from the spec: `convertAmount` (an external utility not part
of this file's source) delegates to a rate service for a point-in-time
rate `r`, so converting an amount applies that rate. -/
def linearConv (r : Rat) : Rat → String → String → Except Unit Rat :=
  fun amount _ _ => .ok (r * amount)

/-! ## C7 — intent classification degrades gracefully -/

/-- C7: `handleFinancialQueryWithLLM` always returns a value; whenever the
model output (after optional code-fence stripping) fails to parse as JSON
or lacks correctly typed `isFinancial`/`intent` fields, and whenever the
model call itself errors, the result is
`isFinancial = false, intent = "unknown"`. -/
theorem classify_intent_degrades (jp : String → Option Json) (raw : String)
    (h : (jp (stripCodeFence (jsTrim raw))).bind intentFields = none) :
    handleFinancialQueryWithLLM (.ok raw) jp =
      { isFinancial := false, intent := "unknown", response := "" } ∧
    handleFinancialQueryWithLLM (.error ()) jp =
      { isFinancial := false, intent := "unknown", response := "" } := by
  refine ⟨?_, rfl⟩
  unfold handleFinancialQueryWithLLM
  dsimp only
  cases hjp : jp (stripCodeFence (jsTrim raw)) with
  | none => rfl
  | some parsed =>
    rw [hjp] at h
    simp only [Option.some_bind] at h
    dsimp only
    rw [h]

/-- Witness for C7 at a concrete unparsable model output. -/
theorem classify_intent_degrades_witness :
    handleFinancialQueryWithLLM (.ok "this is not json") (fun _ => none) =
      { isFinancial := false, intent := "unknown", response := "" } ∧
    handleFinancialQueryWithLLM (.error ()) (fun _ => none) =
      { isFinancial := false, intent := "unknown", response := "" } :=
  classify_intent_degrades (fun _ => none) "this is not json" rfl

/-! ## C9 — stateless fallback when the ledger fetch fails -/

/-- C9: when fetching the transaction history/profile fails entirely and
the stateless completion succeeds, the default path answers with a 200
success envelope whose message is the completion of a prompt built from
the raw message alone (the `fallbackMsg` tag carries nothing but the
message), with no financial snapshot. -/
theorem db_failure_stateless_fallback (o : Oracles) (message t : String)
    (h1 : o.fetchData = .error ()) (h2 : o.gen (.fallbackMsg message) = .ok t) :
    postDefault o message =
      (.ok200 { message := t }, [.fetchData, .genCall (.fallbackMsg message)]) := by
  unfold postDefault dbFallback
  rw [h1, h2]
  rfl

/-- Oracle for the C9 witness: the ledger collaborator is down, the
completion service is up. -/
def oW9 : Oracles :=
  { apiKey := true
    fetchData := .error ()
    parseTx := .error ()
    findProfile2 := .error ()
    conv := fun _ _ _ => .error ()
    persist := fun _ => .error ()
    gen := fun _ => .ok "Happy to help with general advice."
    jsonParse := fun _ => none
    detect := fun _ => "en"
    answerFQ := .error ()
    parseCSV := fun _ => .error () }

/-- Witness for C9 at a concrete down-ledger oracle. -/
theorem db_failure_stateless_fallback_witness :
    postDefault oW9 "what should I do" =
      (.ok200 { message := "Happy to help with general advice." },
        [.fetchData, .genCall (.fallbackMsg "what should I do")]) :=
  db_failure_stateless_fallback oW9 "what should I do"
    "Happy to help with general advice." rfl rfl

/-! ## C10 — the confirm phase persists the absolute amount in USD -/

/-- C10: for every confirm-phase row, the `createTransaction` argument
carries the absolute value of the extracted amount and the fixed USD
source currency, and it is identical under any two conversion services —
the computed `convertedAmount`/`conversionRate` are not what is
persisted. -/
theorem confirm_persists_absolute_usd (dc : String)
    (conv conv2 : Rat → String → String → Except Unit Rat) (row : CsvRow) :
    ((processRow dc conv row).2.1).amount = |row.amount| ∧
    ((processRow dc conv row).2.1).currency = "USD" ∧
    (processRow dc conv row).2.1 = (processRow dc conv2 row).2.1 :=
  ⟨rfl, rfl, rfl⟩

/-! ## C3 — conversion-failure fallback on the stored record -/

/-- A concrete negative (expense) CSV row. -/
def rowNeg : CsvRow :=
  { description := "Lunch", amount := -50, category := "Food & Drink", typ := .expense }

/-- A conversion service that always fails. -/
def failConv : Rat → String → String → Except Unit Rat := fun _ _ _ => .error ()

/-- C3 counterexample: for a negative amount with a failing conversion
service, the stored record has `convertedAmount = -50` but
`originalAmount = 50` (the absolute value), so the claimed invariant
`convertedAmount = originalAmount ∧ convertedCurrency = originalCurrency ∧
conversionRate = 1` is false at this input. -/
theorem conversion_fallback_claim_false :
    ¬ ((processRow "EUR" failConv rowNeg).1.convertedAmount =
        (processRow "EUR" failConv rowNeg).1.originalAmount ∧
      (processRow "EUR" failConv rowNeg).1.convertedCurrency =
        (processRow "EUR" failConv rowNeg).1.originalCurrency ∧
      (processRow "EUR" failConv rowNeg).1.conversionRate = 1) := by
  decide

/-- C3 amended: when the currency differs from the default and the
conversion service fails, the record keeps the extracted signed amount as
`convertedAmount` (so its absolute value equals `originalAmount`), keeps
`convertedCurrency = originalCurrency`, and sets `conversionRate = 1`; no
field is left undefined. -/
theorem conversion_fallback_signed_identity (dc : String)
    (conv : Rat → String → String → Except Unit Rat) (row : CsvRow)
    (h1 : dc ≠ "USD") (h2 : conv |row.amount| "USD" dc = .error ()) :
    (processRow dc conv row).1.convertedAmount = row.amount ∧
    |(processRow dc conv row).1.convertedAmount| =
      (processRow dc conv row).1.originalAmount ∧
    (processRow dc conv row).1.convertedCurrency =
      (processRow dc conv row).1.originalCurrency ∧
    (processRow dc conv row).1.conversionRate = 1 := by
  have h3 : ("USD" : String) ≠ dc := fun e => h1 e.symm
  simp [processRow, h3, h2]

/-- Witness for C3's amended statement at the concrete failing input. -/
theorem conversion_fallback_signed_identity_witness :
    (processRow "EUR" failConv rowNeg).1.convertedAmount = rowNeg.amount ∧
    |(processRow "EUR" failConv rowNeg).1.convertedAmount| =
      (processRow "EUR" failConv rowNeg).1.originalAmount ∧
    (processRow "EUR" failConv rowNeg).1.convertedCurrency =
      (processRow "EUR" failConv rowNeg).1.originalCurrency ∧
    (processRow "EUR" failConv rowNeg).1.conversionRate = 1 :=
  conversion_fallback_signed_identity "EUR" failConv rowNeg (by decide) rfl

/-! ## C5 — sign preservation under conversion -/

/-- A concrete negative row for the C5 witness. -/
def row5 : CsvRow :=
  { description := "Taxi", amount := -50, category := "Transportation", typ := .expense }

/-- C5: converting a negative (expense) amount yields exactly the negation
of the converted absolute value.  On the confirm path this holds for any
conversion service, because the code converts the absolute value and
re-applies the sign; on the default entry path the signed amount is passed
to `convertAmount` directly, which applies a point-in-time rate `r`
(modelled from the spec), so the result again equals `-(r * |a|)`. -/
theorem conversion_sign_preserved (dc : String)
    (conv : Rat → String → String → Except Unit Rat) (row : CsvRow)
    (c r a : Rat) (txC dc2 : String)
    (h1 : dc ≠ "USD") (h2 : row.amount < 0) (h3 : conv |row.amount| "USD" dc = .ok c)
    (h4 : a < 0) (h5 : txC ≠ dc2) :
    (processRow dc conv row).1.convertedAmount = -c ∧
    (applyConversion (linearConv r) a txC dc2).1.1 = -(r * |a|) := by
  constructor
  · have h6 : ("USD" : String) ≠ dc := fun e => h1 e.symm
    simp [processRow, h6, h3, h2]
  · simp only [applyConversion, linearConv, if_pos h5]
    rw [abs_of_neg h4]
    ring_nf

/-- Witness for C5: rate 2 on a −50 expense yields −100 on both paths. -/
theorem conversion_sign_preserved_witness :
    (processRow "EUR" (fun _ _ _ => .ok 100) row5).1.convertedAmount = -100 ∧
    (applyConversion (linearConv 2) (-50) "USD" "EUR").1.1 = -(2 * |(-50 : Rat)|) :=
  conversion_sign_preserved "EUR" (fun _ _ _ => .ok 100) row5 100 2 (-50) "USD" "EUR"
    (by decide) (by decide) rfl (by decide) (by decide)

/-! ## C2 — confirm-phase counts and per-row failure isolation -/

/-- A row's conversion trace never contains a persistence call. -/
theorem processRow_trace_no_persist (dc : String)
    (conv : Rat → String → String → Except Unit Rat) (row : CsvRow) :
    (processRow dc conv row).2.2.countP isPersistEff = 0 := by
  unfold processRow
  dsimp only
  split
  · split <;> rfl
  · rfl

/-- Whether the persistence call a row leads to succeeds. -/
def persistOk (o : Oracles) (dc : String) (row : CsvRow) : Bool :=
  exOk (o.persist (processRow dc o.conv row).2.1)

/-- Loop invariant for the confirm phase: the imported count is the number
of rows whose persistence call succeeds, the two counts partition the
rows, and every row contributes exactly one persistence attempt. -/
theorem confirmLoop_spec (o : Oracles) (dc : String) (rows : List CsvRow) :
    (confirmLoop o dc rows).1 = rows.countP (persistOk o dc) ∧
    (confirmLoop o dc rows).1 + (confirmLoop o dc rows).2.1 = rows.length ∧
    (confirmLoop o dc rows).2.2.countP isPersistEff = rows.length := by
  induction rows with
  | nil => exact ⟨rfl, rfl, rfl⟩
  | cons row rest ih =>
    obtain ⟨ih1, ih2, ih3⟩ := ih
    have hpr := processRow_trace_no_persist dc o.conv row
    cases hp : o.persist (processRow dc o.conv row).2.1 with
    | ok u =>
      have hok : persistOk o dc row = true := by simp [persistOk, hp, exOk]
      refine ⟨?_, ?_, ?_⟩
      · simp [confirmLoop, hp, List.countP_cons, hok, ih1]
        omega
      · simp only [confirmLoop, hp, List.length_cons]
        omega
      · simp [confirmLoop, hp, List.countP_append, hpr, ih3, isPersistEff]
    | error u =>
      have hok : persistOk o dc row = false := by simp [persistOk, hp, exOk]
      refine ⟨?_, ?_, ?_⟩
      · simp [confirmLoop, hp, List.countP_cons, hok, ih1]
      · simp only [confirmLoop, hp, List.length_cons]
        omega
      · simp [confirmLoop, hp, List.countP_append, hpr, ih3, isPersistEff]

/-- C2: for every confirm-phase run whose payload parses into rows, the
imported count is exactly the number of rows whose persistence succeeds,
the two counts sum to the total row count, the response reports both
counts, and every row is attempted (one persistence call per row), so no
row's failure aborts the rest. -/
theorem csv_confirm_counts (o : Oracles) (message csvText preview : String)
    (rows : List CsvRow) (profile : Option Profile)
    (hm : extractAfterMarker message csvConfirmMarker = some csvText)
    (hp : o.parseCSV csvText = .ok (rows, preview))
    (hf : o.findProfile2 = .ok profile) :
    (confirmLoop o (jsOr (profile.map Profile.defaultCurrency) "USD") rows).1 =
      rows.countP (persistOk o (jsOr (profile.map Profile.defaultCurrency) "USD")) ∧
    (confirmLoop o (jsOr (profile.map Profile.defaultCurrency) "USD") rows).1 +
      (confirmLoop o (jsOr (profile.map Profile.defaultCurrency) "USD") rows).2.1 =
      rows.length ∧
    (postCsvConfirm o message).1 =
      .ok200 { message := csvSuccessMessage
                 (confirmLoop o (jsOr (profile.map Profile.defaultCurrency) "USD") rows).1
                 (confirmLoop o (jsOr (profile.map Profile.defaultCurrency) "USD") rows).2.1
               typ := some "csv_success" } ∧
    (postCsvConfirm o message).2.countP isPersistEff = rows.length := by
  obtain ⟨s1, s2, s3⟩ :=
    confirmLoop_spec o (jsOr (profile.map Profile.defaultCurrency) "USD") rows
  have hpost : postCsvConfirm o message =
      (.ok200 { message := csvSuccessMessage
                  (confirmLoop o (jsOr (profile.map Profile.defaultCurrency) "USD") rows).1
                  (confirmLoop o (jsOr (profile.map Profile.defaultCurrency) "USD") rows).2.1
                typ := some "csv_success" },
        [Eff.parseCSV, Eff.findProfile] ++
          (confirmLoop o (jsOr (profile.map Profile.defaultCurrency) "USD") rows).2.2) := by
    unfold postCsvConfirm
    rw [hm]
    dsimp only
    rw [hp]
    dsimp only
    rw [hf]
  refine ⟨s1, s2, ?_, ?_⟩
  · rw [hpost]
  · rw [hpost]
    simpa [isPersistEff] using s3

/-- Rows for the C2 witness: two rows that persist, one that throws. -/
def rowsC2 : List CsvRow :=
  [{ description := "Lunch", amount := -5, category := "Food & Drink", typ := .expense },
   { description := "Salary", amount := 2000, category := "Income", typ := .income },
   { description := "bad", amount := -3, category := "Other", typ := .expense }]

/-- Oracle for the C2 witness: persistence throws exactly on the row
described as `bad`. -/
def oC2 : Oracles :=
  { apiKey := true
    fetchData := .error ()
    parseTx := .error ()
    findProfile2 := .ok none
    conv := fun _ _ _ => .error ()
    persist := fun pl => if pl.description = "bad" then .error () else .ok ()
    gen := fun _ => .error ()
    jsonParse := fun _ => none
    detect := fun _ => "en"
    answerFQ := .error ()
    parseCSV := fun _ => .ok (rowsC2, "3 rows") }

/-- Witness for C2 at a concrete three-row batch with one failing row. -/
theorem csv_confirm_counts_witness :
    (confirmLoop oC2 (jsOr ((none : Option Profile).map Profile.defaultCurrency) "USD") rowsC2).1 =
      rowsC2.countP (persistOk oC2
        (jsOr ((none : Option Profile).map Profile.defaultCurrency) "USD")) ∧
    (confirmLoop oC2 (jsOr ((none : Option Profile).map Profile.defaultCurrency) "USD") rowsC2).1 +
      (confirmLoop oC2 (jsOr ((none : Option Profile).map Profile.defaultCurrency) "USD") rowsC2).2.1 =
      rowsC2.length ∧
    (postCsvConfirm oC2 "Process CSV import: Desc,Amount").1 =
      .ok200 { message := csvSuccessMessage
                 (confirmLoop oC2 (jsOr ((none : Option Profile).map Profile.defaultCurrency) "USD") rowsC2).1
                 (confirmLoop oC2 (jsOr ((none : Option Profile).map Profile.defaultCurrency) "USD") rowsC2).2.1
               typ := some "csv_success" } ∧
    (postCsvConfirm oC2 "Process CSV import: Desc,Amount").2.countP isPersistEff =
      rowsC2.length :=
  csv_confirm_counts oC2 "Process CSV import: Desc,Amount" "Desc,Amount" "3 rows"
    rowsC2 none (by decide) rfl rfl

/-! ## C8 — the preview phase never persists -/

/-- C8: on every preview-phase request — duplicate short-circuit, preview
with the requires-confirmation flag, or failure — the effect trace holds
no `createTransaction` call, so the ledger is unchanged. -/
theorem preview_never_persists (o : Oracles) (message : String)
    (fileInfo : FileMeta) (previousFile : Option FileMeta) :
    (postCsvImport o message fileInfo previousFile).2.countP isPersistEff = 0 := by
  unfold postCsvImport
  cases hE : extractAfterMarker message csvImportMarker with
  | none => rfl
  | some csvText =>
    dsimp only
    cases previousFile with
    | none =>
      dsimp only
      split
      · split <;> simp [isPersistEff]
      · cases o.parseCSV csvText <;> simp [isPersistEff]
    | some pf =>
      dsimp only
      cases o.gen (.dupAnalysis fileInfo pf) with
      | ok t =>
        dsimp only
        split
        · split <;> simp [isPersistEff]
        · cases o.parseCSV csvText <;> simp [isPersistEff]
      | error e =>
        dsimp only
        split
        · split <;> simp [isPersistEff]
        · cases o.parseCSV csvText <;> simp [isPersistEff]

/-! ## C4 — duplicate classification is a substring test, not a prefix test -/

/-- An analysis text that does not begin with the marker but mentions it. -/
def dupText : String := "NEW_FILE: the name mentions DUPLICATE entries, but this file is new."

/-- A concrete uploaded-file descriptor. -/
def fileA : FileMeta :=
  { name := "report.csv", size := 1024, typ := "text/csv", lastModified := 1700000000 }

/-- Oracle for the C4 theorems: the duplicate analysis answers with
`dupText`. -/
def oDup : Oracles :=
  { apiKey := true
    fetchData := .ok ([], none)
    parseTx := .error ()
    findProfile2 := .ok none
    conv := fun _ _ _ => .error ()
    persist := fun _ => .error ()
    gen := fun tag =>
      match tag with
      | .dupAnalysis _ _ => .ok dupText
      | _ => .ok "warned"
    jsonParse := fun _ => none
    detect := fun _ => "en"
    answerFQ := .error ()
    parseCSV := fun _ => .error () }

/-- A concrete preview-phase message carrying the extraction marker. -/
def dupMsg : String := csvImportMarker ++ "Date,Amount\n2024-01-01,5"

/-- C4 counterexample: an analysis whose text does not begin with the
marker token, but merely contains it later, is still classified as a
duplicate — refuting the claim that a response with a different prefix is
classified as not a duplicate. -/
theorem duplicate_marker_not_at_start :
    respIsDup (postCsvImport oDup dupMsg fileA (some fileA)).1 = true ∧
    jsStartsWith dupText "DUPLICATE" = false := by
  exact ⟨by decide, by decide⟩

/-- C4 amended: in the preview phase with a previous file on record and an
analysis response `t`, the upload is classified as a duplicate exactly
when `t` contains the marker token `DUPLICATE` as a substring anywhere
(in particular an empty or malformed response is not a duplicate). -/
theorem duplicate_iff_contains_marker (o : Oracles) (message csvText t : String)
    (f pf : FileMeta)
    (hm : extractAfterMarker message csvImportMarker = some csvText)
    (hg : o.gen (.dupAnalysis f pf) = .ok t) :
    respIsDup (postCsvImport o message f (some pf)).1 = jsIncludes t "DUPLICATE" := by
  unfold postCsvImport
  rw [hm]
  dsimp only
  rw [hg]
  dsimp only
  cases hinc : jsIncludes t "DUPLICATE" with
  | true =>
    cases o.gen (.dupMessage f (stripDupMarker t)) <;> simp [respIsDup]
  | false =>
    cases o.parseCSV csvText <;> simp [respIsDup]

/-- Witness for C4's amended statement at the concrete analysis text. -/
theorem duplicate_iff_contains_marker_witness :
    respIsDup (postCsvImport oDup dupMsg fileA (some fileA)).1 =
      jsIncludes dupText "DUPLICATE" :=
  duplicate_iff_contains_marker oDup dupMsg "Date,Amount\n2024-01-01,5" dupText
    fileA fileA (by decide) rfl

/-! ## C6 — entry detection has priority over question handling -/

/-- The conversion step's trace never holds a classification or Q&A
call. -/
theorem applyConversion_trace_no_qa (conv : Rat → String → String → Except Unit Rat)
    (a : Rat) (c1 c2 : String) :
    (applyConversion conv a c1 c2).2.countP isQAEff = 0 := by
  unfold applyConversion
  split
  · split <;> rfl
  · rfl

/-- When the second profile fetch and the persistence call succeed, the
transaction branch reports the transaction as added and its trace holds
no classification or Q&A call. -/
theorem txBranch_added (o : Oracles) (snap : Snapshot) (message : String)
    (ti : TxInfo) (prof2 : Option Profile)
    (hprof : o.findProfile2 = .ok prof2)
    (hpersist : ∀ pl, o.persist pl = .ok ()) :
    (txBranch o snap message ti).2.1 = true ∧
    (txBranch o snap message ti).2.2.countP isQAEff = 0 := by
  have hconv := applyConversion_trace_no_qa o.conv ti.amount
    (jsOr ti.currency (jsOr (prof2.map Profile.defaultCurrency) "USD"))
    (jsOr (prof2.map Profile.defaultCurrency) "USD")
  unfold txBranch
  rw [hprof]
  dsimp only
  rw [hpersist]
  dsimp only
  cases hg : o.gen (GenTag.successMsg
      { snap with transactionCount := snap.transactionCount + 1 } message ti) with
  | ok t =>
    refine ⟨rfl, ?_⟩
    simp [List.countP_append, hconv, isQAEff]
  | error e =>
    unfold apologyStep
    cases o.gen (.apologyMsg snap message) with
    | ok t =>
      refine ⟨rfl, ?_⟩
      simp [List.countP_append, hconv, isQAEff]
    | error e2 =>
      refine ⟨rfl, ?_⟩
      simp [List.countP_append, hconv, isQAEff]

/-- C6: on the default path, when a transaction is extracted and persists
successfully, the intent-classification prompt and the Q&A collaborator
are never invoked, and the response reports the transaction as added —
entry detection takes priority over question handling and general chat. -/
theorem entry_priority_over_query (o : Oracles) (message : String)
    (td : List Rat × Option Profile) (p : ParsedTransaction) (ti : TxInfo)
    (prof2 : Option Profile)
    (hf : o.fetchData = .ok td)
    (hp : o.parseTx = .ok p)
    (hd : detectTransaction p = some ti)
    (hprof : o.findProfile2 = .ok prof2)
    (hpersist : ∀ pl, o.persist pl = .ok ()) :
    (postDefault o message).2.countP isQAEff = 0 ∧
    respAdded (postDefault o message).1 = some true := by
  unfold postDefault
  rw [hf]
  dsimp only
  rw [hp]
  dsimp only
  rw [hd]
  dsimp only
  obtain ⟨hb1, hb2⟩ := txBranch_added o
    { balance := (List.filter (fun a => decide (0 < a)) td.1).sum -
        |(List.filter (fun a => decide (a < 0)) td.1).sum|
      income := (List.filter (fun a => decide (0 < a)) td.1).sum
      expenses := |(List.filter (fun a => decide (a < 0)) td.1).sum|
      transactionCount := td.1.length
      defaultCurrency := jsOr (Option.map Profile.defaultCurrency td.2) "USD" }
    message ti prof2 hprof hpersist
  unfold generalAndQA
  rw [hb1]
  dsimp only
  constructor
  · simp [List.countP_append, hb2, isQAEff]
  · rfl

/-- Oracle for the C6 witness: everything succeeds and the message is both
an entry and a question. -/
def oC6 : Oracles :=
  { apiKey := true
    fetchData := .ok ([3], some { defaultCurrency := "USD" })
    parseTx := .ok { amount := some 7, description := some "salary" }
    findProfile2 := .ok (some { defaultCurrency := "USD" })
    conv := fun _ _ _ => .error ()
    persist := fun _ => .ok ()
    gen := fun _ => .ok "Recorded your salary."
    jsonParse := fun _ =>
      some (.jobj [("isFinancial", .jbool true), ("intent", .jstr "balance_inquiry")])
    detect := fun _ => "en"
    answerFQ := .ok "Your balance is 3."
    parseCSV := fun _ => .error () }

/-- Witness for C6 at a concrete fully-successful oracle. -/
theorem entry_priority_over_query_witness :
    (postDefault oC6 "I got my 7 salary, what is my balance?").2.countP isQAEff = 0 ∧
    respAdded (postDefault oC6 "I got my 7 salary, what is my balance?").1 = some true :=
  entry_priority_over_query oC6 "I got my 7 salary, what is my balance?"
    ([3], some { defaultCurrency := "USD" })
    { amount := some 7, description := some "salary" }
    { description := "salary", amount := 7, currency := none, category := "Other",
      typ := .income, date := none, vendor := none }
    (some { defaultCurrency := "USD" })
    rfl rfl (by decide) rfl (fun _ => rfl)

/-! ## C1 — the apologetic failure response is composed but then discarded -/

/-- Oracle for the C1 failing input: persistence fails; the apologetic and
general completions both succeed. -/
def oC1 : Oracles :=
  { apiKey := true
    fetchData := .ok ([], none)
    parseTx := .ok { amount := some (-12), description := some "lunch" }
    findProfile2 := .ok none
    conv := fun _ _ _ => .error ()
    persist := fun _ => .error ()
    gen := fun tag =>
      match tag with
      | .apologyMsg _ _ => .ok "Sorry, I could not save that transaction."
      | .generalMsg _ _ => .ok "Here is some general financial advice."
      | _ => .ok ""
    jsonParse := fun _ => none
    detect := fun _ => "en"
    answerFQ := .error ()
    parseCSV := fun _ => .error () }

/-- C1: at a concrete input where a transaction is detected and its
persistence fails, the apologetic completion is invoked (it appears in the
trace), yet the user-facing response is the general-chat completion, not
the apologetic or fixed-string response — because the guard that decides
whether to overwrite `responseText` checks `transactionAdded` (false after
a persistence failure) instead of whether a transaction was detected. -/
theorem apology_overwritten_by_general :
    (postDefault oC1 "Spent 12 on lunch").1 =
      .ok200 { message := "Here is some general financial advice."
               transactionAdded := some false } ∧
    (postDefault oC1 "Spent 12 on lunch").2.countP isApologyEff = 1 := by
  exact ⟨by decide, by decide⟩

end Coinmind
